import Mathlib

/-
  Verification development for the Minecraft Bedrock session bot
  (src/index.js).  The definitions below are a shallow embedding of the
  session-lifecycle, safety-monitor and chat code of the
  MinecraftBedrockDiscordBot class; theorems settle the behavioural
  claims about that code.
-/

namespace BedrockBot

/- String literals used by the source. -/

def unknownWorld : String := "Unknown"

def noName : String := ""

def slashMark : String := "/"

def sayCmd : String := "/say "

/- 3D position snapshot (currentCoords in the source). -/

structure Coords where
  x : Int
  y : Int
  z : Int
deriving DecidableEq

def zeroCoords : Coords := { x := 0, y := 0, z := 0 }

/- safetyConfig object of the source. -/

structure SafetyConfig where
  enabled : Bool
  proximityRadius : Nat
  minHealth : Nat
  alertCooldown : Nat
  autoDisconnectOnThreat : Bool
  autoDisconnectHealth : Nat
deriving DecidableEq

/-
  Mutable fields of the MinecraftBedrockDiscordBot object that the
  claims touch.  The game-protocol connection handle (minecraftBot) is
  modelled as an optional numeric handle id; JS Sets of player names are
  modelled as lists in insertion order.  Times are epoch milliseconds.
-/

structure BotState where
  minecraftBot : Option Nat
  isConnected : Bool
  isConnecting : Bool
  shouldJoin : Bool
  reconnectAttempts : Nat
  maxReconnectAttempts : Nat
  reconnectDelay : Nat
  currentWorld : String
  currentCoords : Coords
  currentHealth : Nat
  lastHealth : Nat
  nearbyPlayers : List String
  safetyConfig : SafetyConfig
  lastHealthAlert : Nat
  lastProximityAlert : Nat
  trustedPlayers : List String
  blockedPlayers : List String
deriving DecidableEq

/- Alerts sent through sendSafetyAlert, with the data each one carries. -/

inductive Alert where
  | threatDetected (threats : List String)
  | proximityAlert (players : List (String × Bool × Bool))
  | criticalHealth (damage : Nat) (health : Nat)
  | damageTaken (damage : Nat) (prevHealth : Nat) (newHealth : Nat)
  | lowHealth (health : Nat)
deriving DecidableEq

/- Alert categories, keyed by which throttle timestamp (if any) gates them. -/

inductive AlertCategory where
  | proximityCat
  | healthWarnCat
  | damageCat
  | criticalCat
deriving DecidableEq

def Alert.category : Alert → AlertCategory
  | .threatDetected _ => .proximityCat
  | .proximityAlert _ => .proximityCat
  | .criticalHealth _ _ => .criticalCat
  | .damageTaken _ _ _ => .damageCat
  | .lowHealth _ => .healthWarnCat

/- Observable effects of a safety evaluation: an alert delivery, or a
   setTimeout that will set shouldJoin to false and disconnect. -/

inductive Effect where
  | alert (a : Alert)
  | scheduleDisconnect (delayMs : Nat)
deriving DecidableEq

def effectHasCat (c : AlertCategory) : Effect → Bool
  | .alert a => decide (a.category = c)
  | .scheduleDisconnect _ => false

def alertCatEffects (c : AlertCategory) (effs : List Effect) : List Effect :=
  effs.filter (effectHasCat c)

def isScheduledDisconnect : Effect → Bool
  | .scheduleDisconnect _ => true
  | .alert _ => false

/- Trust annotation of each nearby player, as built for the generic
   proximity alert (trusted mark, blocked mark). -/

def annotatedList (s : BotState) : List (String × Bool × Bool) :=
  s.nearbyPlayers.map (fun p => (p, s.trustedPlayers.contains p, s.blockedPlayers.contains p))

/- threats = nearby players not in the trusted set. -/

def threatsOf (s : BotState) : List String :=
  s.nearbyPlayers.filter (fun p => !(s.trustedPlayers.contains p))

/- checkPlayerProximity (src/index.js lines 562-606). -/

def checkPlayerProximity (now : Nat) (s : BotState) : BotState × List Effect :=
  if s.safetyConfig.enabled = false ∨ s.minecraftBot = none ∨ s.isConnected = false then
    (s, [])
  else if (now : Int) - (s.lastProximityAlert : Int) < (s.safetyConfig.alertCooldown : Int) then
    (s, [])
  else if 0 < s.nearbyPlayers.length then
    let s1 := { s with lastProximityAlert := now }
    if s.safetyConfig.autoDisconnectOnThreat = true ∧ 0 < (threatsOf s).length then
      (s1, [Effect.alert (Alert.threatDetected (threatsOf s)), Effect.scheduleDisconnect 1000])
    else
      (s1, [Effect.alert (Alert.proximityAlert (annotatedList s))])
  else
    (s, [])

/- The tail of checkHealth after the damage branch: update lastHealth,
   then the low-health warning gated by the health-alert cooldown. -/

def healthTail (now : Nat) (s : BotState) (effs : List Effect) : BotState × List Effect :=
  let s1 := { s with lastHealth := s.currentHealth }
  if s1.currentHealth ≤ s1.safetyConfig.minHealth ∧
      (s1.safetyConfig.alertCooldown : Int) < (now : Int) - (s1.lastHealthAlert : Int) then
    ({ s1 with lastHealthAlert := now }, effs ++ [Effect.alert (Alert.lowHealth s1.currentHealth)])
  else
    (s1, effs)

/- checkHealth (src/index.js lines 608-655).  The critical branch
   returns early, before the lastHealth update and the low-health check. -/

def checkHealth (now : Nat) (s : BotState) : BotState × List Effect :=
  if s.safetyConfig.enabled = false ∨ s.minecraftBot = none ∨ s.isConnected = false then
    (s, [])
  else if s.currentHealth < s.lastHealth then
    if s.currentHealth ≤ s.safetyConfig.autoDisconnectHealth then
      (s, [Effect.alert (Alert.criticalHealth (s.lastHealth - s.currentHealth) s.currentHealth),
           Effect.scheduleDisconnect 500])
    else
      healthTail now s
        [Effect.alert (Alert.damageTaken (s.lastHealth - s.currentHealth) s.lastHealth s.currentHealth)]
  else
    healthTail now s []

/- The startsWith slash test of the source: the message opens with the
   slash character. -/

def slashChar : Char := '/'

def startsWithSlash (message : String) : Bool :=
  match message.data with
  | [] => false
  | c :: _ => c = slashChar

/- sendChatMessage (src/index.js lines 657-673): the command_request
   queued to the game client, none when not connected. -/

def sendChatMessage (s : BotState) (message : String) : Option String :=
  if s.minecraftBot = none ∨ s.isConnected = false then
    none
  else
    some (if startsWithSlash message then message else sayCmd ++ message)

/- attemptReconnect (src/index.js lines 675-700): returns the updated
   state and the delay of the scheduled deferred connect, if any. -/

def attemptReconnect (s : BotState) : BotState × Option Nat :=
  if s.shouldJoin = false then
    (s, none)
  else if s.isConnecting = true then
    (s, none)
  else if s.maxReconnectAttempts ≤ s.reconnectAttempts then
    ({ s with shouldJoin := false }, none)
  else
    let s1 := { s with reconnectAttempts := s.reconnectAttempts + 1 }
    (s1, some (s1.reconnectDelay * min s1.reconnectAttempts 5))

/- Observable connection-handle effects of connectToMinecraft. -/

inductive ConnectEffect where
  | teardown (h : Nat)
  | createHandle (h : Nat)
deriving DecidableEq

/- connectToMinecraft (src/index.js lines 706-743), success path of
   createClient; newHandle is the handle the new client would get. -/

def connectToMinecraft (s : BotState) (newHandle : Nat) : BotState × List ConnectEffect :=
  if s.isConnecting = true then
    (s, [])
  else
    let tearDownEffs : List ConnectEffect :=
      match s.minecraftBot with
      | some h => [ConnectEffect.teardown h]
      | none => []
    ({ s with isConnecting := true, minecraftBot := some newHandle },
     tearDownEffs ++ [ConnectEffect.createHandle newHandle])

/- Body of the setTimeout scheduled by attemptReconnect: re-checks
   shouldJoin and the connection flags at fire time. -/

def reconnectTimerFire (s : BotState) (newHandle : Nat) : BotState × List ConnectEffect :=
  if s.shouldJoin = true ∧ s.isConnected = false ∧ s.isConnecting = false then
    connectToMinecraft s newHandle
  else
    (s, [])

/- The disconnect event handler (src/index.js lines 833-847). -/

def onDisconnect (s : BotState) : BotState × Option Nat :=
  let s1 := { s with isConnected := false, isConnecting := false, minecraftBot := none,
                     currentWorld := unknownWorld, currentCoords := zeroCoords }
  if s1.shouldJoin = true then attemptReconnect s1 else (s1, none)

/- The error event handler (src/index.js lines 850-862).  Unlike the
   disconnect and kick handlers it does not null out minecraftBot. -/

def onError (s : BotState) : BotState × Option Nat :=
  let s1 := { s with isConnected := false, isConnecting := false,
                     currentWorld := unknownWorld, currentCoords := zeroCoords }
  if s1.shouldJoin = true then attemptReconnect s1 else (s1, none)

/- The kick event handler (src/index.js lines 865-878). -/

def onKick (s : BotState) : BotState × Option Nat :=
  let s1 := { s with isConnected := false, isConnecting := false, minecraftBot := none,
                     currentWorld := unknownWorld, currentCoords := zeroCoords }
  if s1.shouldJoin = true then attemptReconnect s1 else (s1, none)

inductive DropEvent where
  | disc
  | kick
  | err
deriving DecidableEq

def handleDrop : DropEvent → BotState → BotState × Option Nat
  | .disc, s => onDisconnect s
  | .kick, s => onKick s
  | .err, s => onError s

/- Run a sequence of connection-drop events, collecting the delays of
   all deferred connects the reconnect logic schedules. -/

def runDrops : BotState → List DropEvent → BotState × List Nat
  | s, [] => (s, [])
  | s, e :: rest =>
    let r1 := handleDrop e s
    let r2 := runDrops r1.1 rest
    (r2.1, (match r1.2 with
            | some d => [d]
            | none => []) ++ r2.2)

/- JS Set insertion: add each element not already present, keeping
   insertion order (player_list handler clears then re-adds). -/

def setInsertAll : List String → List String → List String
  | acc, [] => acc
  | acc, x :: xs => setInsertAll (if acc.contains x then acc else acc ++ [x]) xs

/- The set_health packet handler (src/index.js lines 804-810). -/

def onSetHealth (t : Nat) (h : Nat) (s : BotState) : BotState × List Effect :=
  let s1 := { s with lastHealth := s.currentHealth, currentHealth := h }
  checkHealth t s1

/- The player_list packet handler (src/index.js lines 881-891):
   replaces the nearby set wholesale, excluding the bot itself. -/

def onPlayerList (uname : String) (t : Nat) (records : List String) (s : BotState) :
    BotState × List Effect :=
  let s1 := { s with nearbyPlayers := setInsertAll [] (records.filter (fun r => r ≠ uname)) }
  checkPlayerProximity t s1

/- The periodic safety sweep (src/index.js lines 893-899). -/

def onSafetyTimer (t : Nat) (s : BotState) : BotState × List Effect :=
  if s.isConnected = true ∧ s.safetyConfig.enabled = true then
    let r1 := checkPlayerProximity t s
    let r2 := checkHealth t r1.1
    (r2.1, r1.2 ++ r2.2)
  else
    (s, [])

/- Telemetry/timer events that drive the safety monitor, each tagged
   with its wall-clock time in milliseconds. -/

inductive SafetyEvent where
  | healthUpdate (t : Nat) (h : Nat)
  | playerList (t : Nat) (records : List String)
  | timerTick (t : Nat)
deriving DecidableEq

def SafetyEvent.time : SafetyEvent → Nat
  | .healthUpdate t _ => t
  | .playerList t _ => t
  | .timerTick t => t

def stepEvent (uname : String) (s : BotState) (e : SafetyEvent) : BotState × List (Nat × Effect) :=
  match e with
  | .healthUpdate t h =>
    let r := onSetHealth t h s
    (r.1, r.2.map (fun x => (t, x)))
  | .playerList t rs =>
    let r := onPlayerList uname t rs s
    (r.1, r.2.map (fun x => (t, x)))
  | .timerTick t =>
    let r := onSafetyTimer t s
    (r.1, r.2.map (fun x => (t, x)))

def runTrace (uname : String) : BotState → List SafetyEvent → BotState × List (Nat × Effect)
  | s, [] => (s, [])
  | s, e :: rest =>
    let r1 := stepEvent uname s e
    let r2 := runTrace uname r1.1 rest
    (r2.1, r1.2 ++ r2.2)

/- Event times are nondecreasing and bounded below by lo. -/

def monoFrom : Nat → List SafetyEvent → Bool
  | _, [] => true
  | lo, e :: rest => decide (lo ≤ e.time) && monoFrom e.time rest

/- Timestamped alerts of one category in a trace output. -/

def catAlerts (c : AlertCategory) (out : List (Nat × Effect)) : List (Nat × Effect) :=
  out.filter (fun p => effectHasCat c p.2)

/- Two timestamped emissions at least the cooldown apart. -/

def cooldownApart (cool : Nat) (p q : Nat × Effect) : Prop :=
  p.1 + cool ≤ q.1

/- Scheduled auto-disconnects of a trace output. -/

def scheduledDisconnects (out : List (Nat × Effect)) : List (Nat × Effect) :=
  out.filter (fun p => isScheduledDisconnect p.2)

/- Concrete states used to exercise the definitions. -/

def pA : String := "A"

def pB : String := "B"

def helloMsg : String := "hello"

def sayHello : String := "/say hello"

def tpCmd : String := "/tp home"

def enabledConfig : SafetyConfig :=
  { enabled := true, proximityRadius := 50, minHealth := 10, alertCooldown := 30000,
    autoDisconnectOnThreat := true, autoDisconnectHealth := 6 }

def baseState : BotState :=
  { minecraftBot := some 1, isConnected := true, isConnecting := false, shouldJoin := true,
    reconnectAttempts := 0, maxReconnectAttempts := 10000, reconnectDelay := 15000,
    currentWorld := unknownWorld, currentCoords := zeroCoords,
    currentHealth := 20, lastHealth := 20, nearbyPlayers := [],
    safetyConfig := enabledConfig, lastHealthAlert := 0, lastProximityAlert := 0,
    trustedPlayers := [], blockedPlayers := [] }

/- Nearby players A (trusted) and B (untrusted), cooldown elapsed. -/

def proxState : BotState :=
  { baseState with nearbyPlayers := [pA, pB], trustedPlayers := [pA] }

/- Same but with threat auto-disconnect turned off. -/

def proxStateNoAuto : BotState :=
  { proxState with safetyConfig := { enabledConfig with autoDisconnectOnThreat := false } }

/- Health dropped 20 to 14 (above the critical threshold 6). -/

def damageState : BotState :=
  { baseState with currentHealth := 14 }

/- Health dropped 20 to 5 (at or below the critical threshold 6). -/

def critState : BotState :=
  { baseState with currentHealth := 5 }

/- Health steady at 5, below the critical threshold, not decreasing. -/

def stableLowState : BotState :=
  { baseState with currentHealth := 5, lastHealth := 5 }

/- Disconnected state without a handle. -/

def idleState : BotState :=
  { baseState with minecraftBot := none, isConnected := false }

/- Reconnect budget exhausted: attempts at the maximum. -/

def maxedState : BotState :=
  { baseState with isConnected := false, reconnectAttempts := 3, maxReconnectAttempts := 3 }

/- Two health drops 1 ms apart, each above the critical threshold. -/

def throttleEvents : List SafetyEvent :=
  [SafetyEvent.healthUpdate 100 14, SafetyEvent.healthUpdate 101 10]

/- Two periodic sweeps, well apart. -/

def quietEvents : List SafetyEvent :=
  [SafetyEvent.timerTick 50000, SafetyEvent.timerTick 70000]

/- Disconnected state eligible for reconnection. -/

def droppedState : BotState :=
  { baseState with minecraftBot := none, isConnected := false }

/- One of each connection-drop event. -/

def dropEvents : List DropEvent :=
  [DropEvent.disc, DropEvent.kick, DropEvent.err]

/-- Claim C1: with safety enabled, a live handle, the session Connected,
the proximity cooldown elapsed and the nearby set non-empty,
checkPlayerProximity emits exactly one urgent threat alert plus one
scheduled disconnect when autoDisconnectOnThreat is set and a threat
exists, and otherwise exactly one generic alert listing all nearby
players with trust annotations and no disconnect. -/
theorem checkPlayerProximity_branches (now : Nat) (s : BotState)
    (hEn : s.safetyConfig.enabled = true)
    (hBot : s.minecraftBot ≠ none)
    (hConn : s.isConnected = true)
    (hCool : ¬ ((now : Int) - (s.lastProximityAlert : Int) < (s.safetyConfig.alertCooldown : Int)))
    (hNe : s.nearbyPlayers ≠ []) :
    checkPlayerProximity now s =
      if s.safetyConfig.autoDisconnectOnThreat = true ∧ 0 < (threatsOf s).length then
        ({ s with lastProximityAlert := now },
         [Effect.alert (Alert.threatDetected (threatsOf s)), Effect.scheduleDisconnect 1000])
      else
        ({ s with lastProximityAlert := now },
         [Effect.alert (Alert.proximityAlert (annotatedList s))]) := by
  have h1 : ¬ (s.safetyConfig.enabled = false ∨ s.minecraftBot = none ∨ s.isConnected = false) := by
    simp [hEn, hBot, hConn]
  have h3 : 0 < s.nearbyPlayers.length := List.length_pos.mpr hNe
  simp only [checkPlayerProximity, if_neg h1, if_neg hCool, if_pos h3]

/-- Claim C1 witness: nearby players A (trusted) and B (untrusted) with
autoDisconnectOnThreat on give one threat alert and one scheduled
disconnect; with it off, one annotated generic alert and no disconnect. -/
theorem checkPlayerProximity_branches_witness :
    checkPlayerProximity 50000 proxState =
      ({ proxState with lastProximityAlert := 50000 },
       [Effect.alert (Alert.threatDetected [pB]), Effect.scheduleDisconnect 1000]) ∧
    checkPlayerProximity 50000 proxStateNoAuto =
      ({ proxStateNoAuto with lastProximityAlert := 50000 },
       [Effect.alert (Alert.proximityAlert [(pA, true, false), (pB, false, false)])]) :=
  ⟨(checkPlayerProximity_branches 50000 proxState (by decide) (by decide) (by decide)
      (by decide) (by decide)).trans (by decide),
   (checkPlayerProximity_branches 50000 proxStateNoAuto (by decide) (by decide) (by decide)
      (by decide) (by decide)).trans (by decide)⟩

/-- Claim C2: attemptReconnect with shouldJoin, no connect in flight and
attempts strictly below the maximum increments the counter by exactly
one and schedules a single deferred connect after
reconnectDelay times min of the incremented counter and 5; the deferred
body fires only if shouldJoin still holds and the session is neither
Connected nor Connecting. -/
theorem attemptReconnect_backoff (s : BotState)
    (hJ : s.shouldJoin = true) (hC : s.isConnecting = false)
    (hA : s.reconnectAttempts < s.maxReconnectAttempts) :
    attemptReconnect s =
      ({ s with reconnectAttempts := s.reconnectAttempts + 1 },
       some (s.reconnectDelay * min (s.reconnectAttempts + 1) 5)) ∧
    (∀ (t : BotState) (nh : Nat),
      ¬ (t.shouldJoin = true ∧ t.isConnected = false ∧ t.isConnecting = false) →
      reconnectTimerFire t nh = (t, [])) := by
  constructor
  · have h1 : ¬ s.shouldJoin = false := by simp [hJ]
    have h2 : ¬ s.isConnecting = true := by simp [hC]
    have h3 : ¬ s.maxReconnectAttempts ≤ s.reconnectAttempts := by omega
    simp only [attemptReconnect, if_neg h1, if_neg h2, if_neg h3]
  · intro t nh hg
    simp only [reconnectTimerFire, if_neg hg]

/-- Claim C2 witness: from a dropped state with zero prior attempts the
counter becomes 1 and the deferred connect is scheduled after
15000 times min 1 5 = 15000 ms; a timer body with shouldJoin cleared
does nothing. -/
theorem attemptReconnect_backoff_witness :
    attemptReconnect droppedState =
      ({ droppedState with reconnectAttempts := 1 }, some 15000) ∧
    reconnectTimerFire { droppedState with shouldJoin := false } 7 =
      ({ droppedState with shouldJoin := false }, []) :=
  ⟨((attemptReconnect_backoff droppedState (by decide) (by decide) (by decide)).1).trans
      (by decide),
   ((attemptReconnect_backoff droppedState (by decide) (by decide) (by decide)).2)
      { droppedState with shouldJoin := false } 7 (by decide)⟩

/- With the reconnect budget exhausted, every drop handler schedules
   nothing and preserves the attempt counter and its bound. -/
theorem handleDrop_maxed (e : DropEvent) (t : BotState)
    (hMax : t.maxReconnectAttempts ≤ t.reconnectAttempts) :
    (handleDrop e t).2 = none ∧
    (handleDrop e t).1.reconnectAttempts = t.reconnectAttempts ∧
    (handleDrop e t).1.maxReconnectAttempts = t.maxReconnectAttempts := by
  cases e <;>
    simp only [handleDrop, onDisconnect, onKick, onError, attemptReconnect] <;>
    split <;> simp_all

/- With the reconnect budget exhausted, no sequence of drop events ever
   schedules a deferred connect, and the counter never moves. -/
theorem runDrops_maxed : ∀ (evs : List DropEvent) (t : BotState),
    t.maxReconnectAttempts ≤ t.reconnectAttempts →
    (runDrops t evs).2 = [] ∧
    (runDrops t evs).1.reconnectAttempts = t.reconnectAttempts ∧
    (runDrops t evs).1.maxReconnectAttempts = t.maxReconnectAttempts
  | [], t, _ => by simp [runDrops]
  | e :: rest, t, hMax => by
    have h1 := handleDrop_maxed e t hMax
    have h2 := runDrops_maxed rest (handleDrop e t).1 (by omega)
    simp only [runDrops, h1.1]
    refine ⟨h2.1, ?_, ?_⟩ <;> omega

/-- Claim C3: once reconnectAttempts has reached maxReconnectAttempts, a
reconnect-logic invocation of attemptReconnect clears shouldJoin without
touching the counter, and from any such budget-exhausted state no
sequence of further disconnect, kick or error events ever schedules
another connect attempt. -/
theorem attemptReconnect_terminal (s : BotState)
    (hJ : s.shouldJoin = true) (hC : s.isConnecting = false)
    (hMax : s.maxReconnectAttempts ≤ s.reconnectAttempts) :
    attemptReconnect s = ({ s with shouldJoin := false }, none) ∧
    (∀ (t : BotState) (evs : List DropEvent),
      t.maxReconnectAttempts ≤ t.reconnectAttempts →
      (runDrops t evs).2 = [] ∧
      (runDrops t evs).1.reconnectAttempts = t.reconnectAttempts) := by
  constructor
  · have h1 : ¬ s.shouldJoin = false := by simp [hJ]
    have h2 : ¬ s.isConnecting = true := by simp [hC]
    simp only [attemptReconnect, if_neg h1, if_neg h2, if_pos hMax]
  · intro t evs hm
    exact ⟨(runDrops_maxed evs t hm).1, (runDrops_maxed evs t hm).2.1⟩

/-- Claim C3 witness: at 3 of 3 attempts, attemptReconnect clears
shouldJoin and schedules nothing, and a disconnect, a kick and an error
in sequence schedule no connect. -/
theorem attemptReconnect_terminal_witness :
    attemptReconnect maxedState = ({ maxedState with shouldJoin := false }, none) ∧
    (runDrops maxedState dropEvents).2 = [] :=
  ⟨(attemptReconnect_terminal maxedState (by decide) (by decide) (by decide)).1,
   ((attemptReconnect_terminal maxedState (by decide) (by decide) (by decide)).2
      maxedState dropEvents (by decide)).1⟩

/-- Claim C4 counterexample: with safety enabled and the session
Connected, health dropping from 20 to 5 is a strict decrease yet
checkHealth emits no damage-taken alert at all (the critical branch
returns early instead), refuting the claim that every decrease yields
exactly one damage-taken alert. -/
theorem checkHealth_damage_counterexample :
    critState.safetyConfig.enabled = true ∧ critState.isConnected = true ∧
    critState.currentHealth < critState.lastHealth ∧
    alertCatEffects AlertCategory.damageCat (checkHealth 0 critState).2 = [] := by
  decide

/-- Claim C4 amended: with safety enabled, a live handle and the session
Connected, if the new health is strictly below the previous health and
strictly above autoDisconnectHealth, exactly one damage-taken alert
carrying delta previous minus new is emitted, regardless of any cooldown
state. -/
theorem checkHealth_damage_alert (now : Nat) (s : BotState)
    (hEn : s.safetyConfig.enabled = true)
    (hBot : s.minecraftBot ≠ none)
    (hConn : s.isConnected = true)
    (hDec : s.currentHealth < s.lastHealth)
    (hAbove : s.safetyConfig.autoDisconnectHealth < s.currentHealth) :
    alertCatEffects AlertCategory.damageCat (checkHealth now s).2 =
      [Effect.alert (Alert.damageTaken (s.lastHealth - s.currentHealth)
        s.lastHealth s.currentHealth)] := by
  have h1 : ¬ (s.safetyConfig.enabled = false ∨ s.minecraftBot = none ∨ s.isConnected = false) := by
    simp [hEn, hBot, hConn]
  have h3 : ¬ s.currentHealth ≤ s.safetyConfig.autoDisconnectHealth := by omega
  simp only [checkHealth, if_neg h1, if_pos hDec, if_neg h3, healthTail]
  split <;> simp [alertCatEffects, effectHasCat, Alert.category]

/-- Claim C4 witness: previous health 20, new health 14 gives exactly
one damage-taken alert with delta 6, with the low-health cooldown
freshly consumed (lastHealthAlert far in the past plays no role). -/
theorem checkHealth_damage_alert_witness :
    alertCatEffects AlertCategory.damageCat (checkHealth 0 damageState).2 =
      [Effect.alert (Alert.damageTaken 6 20 14)] :=
  (checkHealth_damage_alert 0 damageState (by decide) (by decide) (by decide)
    (by decide) (by decide)).trans (by decide)

/-- Claim C5 counterexample: health steady at 5, at or below the
auto-disconnect threshold 6, while enabled and Connected: a periodic
safety sweep emits no critical-health alert and schedules no disconnect,
because the critical check only runs on a strict health decrease. -/
theorem checkHealth_critical_counterexample :
    stableLowState.currentHealth ≤ stableLowState.safetyConfig.autoDisconnectHealth ∧
    stableLowState.isConnected = true ∧
    stableLowState.safetyConfig.enabled = true ∧
    stableLowState.currentHealth = stableLowState.lastHealth ∧
    alertCatEffects AlertCategory.criticalCat (onSafetyTimer 40000 stableLowState).2 = [] ∧
    (onSafetyTimer 40000 stableLowState).2.filter isScheduledDisconnect = [] := by
  decide

/-- Claim C5 amended: with safety enabled, a live handle and the session
Connected, if the new health is strictly below the previous health and
at or below autoDisconnectHealth, checkHealth emits exactly one urgent
critical-health alert and schedules exactly one automatic disconnect
after 500 ms; with health unchanged (as on a periodic re-evaluation)
the critical path does not run. -/
theorem checkHealth_critical (now : Nat) (s : BotState)
    (hEn : s.safetyConfig.enabled = true)
    (hBot : s.minecraftBot ≠ none)
    (hConn : s.isConnected = true)
    (hDec : s.currentHealth < s.lastHealth)
    (hCrit : s.currentHealth ≤ s.safetyConfig.autoDisconnectHealth) :
    checkHealth now s =
      (s, [Effect.alert (Alert.criticalHealth (s.lastHealth - s.currentHealth) s.currentHealth),
           Effect.scheduleDisconnect 500]) := by
  have h1 : ¬ (s.safetyConfig.enabled = false ∨ s.minecraftBot = none ∨ s.isConnected = false) := by
    simp [hEn, hBot, hConn]
  simp only [checkHealth, if_neg h1, if_pos hDec, if_pos hCrit]

/-- Claim C5 witness: health dropping 20 to 5 with threshold 6 gives the
critical alert with delta 15 and one scheduled disconnect. -/
theorem checkHealth_critical_witness :
    checkHealth 0 critState =
      (critState, [Effect.alert (Alert.criticalHealth 15 5), Effect.scheduleDisconnect 500]) :=
  (checkHealth_critical 0 critState (by decide) (by decide) (by decide)
    (by decide) (by decide)).trans (by decide)

/-- Claim C9 counterexample: on the critical auto-disconnect path (health
20 to 5, threshold 6) checkHealth returns before the previous-health
update, so the stored previous health is not the evaluated value. -/
theorem checkHealth_lastHealth_counterexample :
    critState.safetyConfig.enabled = true ∧ critState.isConnected = true ∧
    (checkHealth 0 critState).1.lastHealth ≠ critState.currentHealth := by
  decide

/-- Claim C9 amended: with safety enabled, a live handle and the session
Connected, checkHealth stores the evaluated health as previous health on
every path except the critical auto-disconnect path, whose early return
leaves previous health unchanged. -/
theorem checkHealth_lastHealth_update (now : Nat) (s : BotState)
    (hEn : s.safetyConfig.enabled = true)
    (hBot : s.minecraftBot ≠ none)
    (hConn : s.isConnected = true) :
    (¬ (s.currentHealth < s.lastHealth ∧
        s.currentHealth ≤ s.safetyConfig.autoDisconnectHealth) →
      (checkHealth now s).1.lastHealth = s.currentHealth) ∧
    (s.currentHealth < s.lastHealth ∧
        s.currentHealth ≤ s.safetyConfig.autoDisconnectHealth →
      (checkHealth now s).1.lastHealth = s.lastHealth) := by
  have h1 : ¬ (s.safetyConfig.enabled = false ∨ s.minecraftBot = none ∨ s.isConnected = false) := by
    simp [hEn, hBot, hConn]
  constructor
  · intro hn
    simp only [checkHealth, if_neg h1, healthTail]
    split
    · split
      · exact absurd (by constructor <;> assumption) hn
      · split <;> rfl
    · split <;> rfl
  · intro hc
    simp only [checkHealth, if_neg h1, if_pos hc.1, if_pos hc.2]

/-- Claim C9 witness: health 20 to 14 (not critical) stores 14 as the
previous health after evaluation. -/
theorem checkHealth_lastHealth_update_witness :
    (checkHealth 0 damageState).1.lastHealth = damageState.currentHealth :=
  (checkHealth_lastHealth_update 0 damageState (by decide) (by decide) (by decide)).1
    (by decide)

/-- Claim C7 counterexample: calling connect while Connected (and not
Connecting) is observable: the existing handle 1 is replaced by a new
handle and the state changes, refuting the claimed no-op. -/
theorem connect_idempotent_counterexample :
    baseState.isConnected = true ∧ baseState.isConnecting = false ∧
    baseState.minecraftBot = some 1 ∧
    (connectToMinecraft baseState 99).1 ≠ baseState ∧
    (connectToMinecraft baseState 99).1.minecraftBot = some 99 := by
  decide

/-- Claim C7 amended: calling connect while Connecting has no observable
effect; while a prior handle exists and the session is not Connecting
(in particular while Connected), connect tears the prior handle down,
replaces it with a fresh one and enters the Connecting state. -/
theorem connectToMinecraft_behavior (s : BotState) (nh : Nat) :
    (s.isConnecting = true → connectToMinecraft s nh = (s, [])) ∧
    (∀ h : Nat, s.isConnecting = false → s.minecraftBot = some h →
      connectToMinecraft s nh =
        ({ s with isConnecting := true, minecraftBot := some nh },
         [ConnectEffect.teardown h, ConnectEffect.createHandle nh])) := by
  constructor
  · intro hc
    simp only [connectToMinecraft, if_pos hc]
  · intro h hc hb
    have h2 : ¬ s.isConnecting = true := by simp [hc]
    simp only [connectToMinecraft, if_neg h2, hb]
    rfl

/-- Claim C7 witness: with the in-flight flag set, connect changes
nothing; Connected with handle 1, connect tears down 1 and creates 99. -/
theorem connectToMinecraft_behavior_witness :
    connectToMinecraft { baseState with isConnecting := true } 99 =
      ({ baseState with isConnecting := true }, []) ∧
    connectToMinecraft baseState 99 =
      ({ baseState with isConnecting := true, minecraftBot := some 99 },
       [ConnectEffect.teardown 1, ConnectEffect.createHandle 99]) :=
  ⟨(connectToMinecraft_behavior { baseState with isConnecting := true } 99).1 (by decide),
   (connectToMinecraft_behavior baseState 99).2 1 (by decide) (by decide)⟩

/-- Claim C8 counterexample: the error handler leaves the connection
handle in place instead of clearing it to null. -/
theorem dropHandlers_counterexample :
    baseState.minecraftBot = some 1 ∧
    (onError baseState).1.minecraftBot ≠ none := by
  decide

/- attemptReconnect never touches the connection flags, the handle or
   the world snapshot. -/
theorem attemptReconnect_preserves (s : BotState) :
    (attemptReconnect s).1.isConnected = s.isConnected ∧
    (attemptReconnect s).1.isConnecting = s.isConnecting ∧
    (attemptReconnect s).1.minecraftBot = s.minecraftBot ∧
    (attemptReconnect s).1.currentWorld = s.currentWorld ∧
    (attemptReconnect s).1.currentCoords = s.currentCoords := by
  simp only [attemptReconnect]
  split
  · simp
  · split
    · simp
    · split <;> simp

/-- Claim C8 amended: the disconnect and kick handlers leave the session
Disconnected, clear the handle to null and reset the world snapshot to
unknown and zero; the error handler leaves the session Disconnected and
resets the world snapshot identically but keeps the connection handle. -/
theorem dropHandlers_state (s : BotState) :
    ((onDisconnect s).1.isConnected = false ∧ (onDisconnect s).1.isConnecting = false ∧
     (onDisconnect s).1.minecraftBot = none ∧
     (onDisconnect s).1.currentWorld = unknownWorld ∧
     (onDisconnect s).1.currentCoords = zeroCoords) ∧
    ((onKick s).1.isConnected = false ∧ (onKick s).1.isConnecting = false ∧
     (onKick s).1.minecraftBot = none ∧
     (onKick s).1.currentWorld = unknownWorld ∧
     (onKick s).1.currentCoords = zeroCoords) ∧
    ((onError s).1.isConnected = false ∧ (onError s).1.isConnecting = false ∧
     (onError s).1.minecraftBot = s.minecraftBot ∧
     (onError s).1.currentWorld = unknownWorld ∧
     (onError s).1.currentCoords = zeroCoords) := by
  refine ⟨?_, ?_, ?_⟩ <;>
    simp only [onDisconnect, onKick, onError] <;>
    split <;>
    simp [attemptReconnect_preserves]

/-- Claim C10: while Connected with a live handle, sendChatMessage
queues a leading-slash text verbatim and otherwise prepends the say
command; when no handle exists or the session is not Connected nothing
is queued. -/
theorem sendChatMessage_queues (s : BotState) (message : String) :
    (s.minecraftBot ≠ none → s.isConnected = true →
      sendChatMessage s message =
        some (if startsWithSlash message then message
              else sayCmd ++ message)) ∧
    (s.minecraftBot = none ∨ s.isConnected = false →
      sendChatMessage s message = none) := by
  constructor
  · intro h1 h2
    have hg : ¬ (s.minecraftBot = none ∨ s.isConnected = false) := by simp [h1, h2]
    simp only [sendChatMessage, if_neg hg]
  · intro h
    simp only [sendChatMessage, if_pos h]

/-- Claim C10 witness: connected, a plain message becomes a say command,
a slash command passes through verbatim; disconnected, nothing queues. -/
theorem sendChatMessage_queues_witness :
    sendChatMessage baseState helloMsg = some sayHello ∧
    sendChatMessage baseState tpCmd = some tpCmd ∧
    sendChatMessage idleState helloMsg = none :=
  ⟨((sendChatMessage_queues baseState helloMsg).1 (by decide) (by decide)).trans (by decide),
   ((sendChatMessage_queues baseState tpCmd).1 (by decide) (by decide)).trans (by decide),
   (sendChatMessage_queues idleState helloMsg).2 (by decide)⟩

/- Computation rules for alert categories, used by the throttle proofs. -/

@[simp] theorem effectHasCat_schedule (c : AlertCategory) (d : Nat) :
    effectHasCat c (Effect.scheduleDisconnect d) = false := rfl

@[simp] theorem effectHasCat_alert (c : AlertCategory) (a : Alert) :
    effectHasCat c (Effect.alert a) = decide (a.category = c) := rfl

@[simp] theorem category_threat (ts : List String) :
    (Alert.threatDetected ts).category = AlertCategory.proximityCat := rfl

@[simp] theorem category_proximity (ps : List (String × Bool × Bool)) :
    (Alert.proximityAlert ps).category = AlertCategory.proximityCat := rfl

@[simp] theorem category_critical (d h : Nat) :
    (Alert.criticalHealth d h).category = AlertCategory.criticalCat := rfl

@[simp] theorem category_damage (d p n : Nat) :
    (Alert.damageTaken d p n).category = AlertCategory.damageCat := rfl

@[simp] theorem category_low (h : Nat) :
    (Alert.lowHealth h).category = AlertCategory.healthWarnCat := rfl

theorem alertCatEffects_append (c : AlertCategory) (l1 l2 : List Effect) :
    alertCatEffects c (l1 ++ l2) = alertCatEffects c l1 ++ alertCatEffects c l2 := by
  simp [alertCatEffects]

theorem catAlerts_append (c : AlertCategory) (l1 l2 : List (Nat × Effect)) :
    catAlerts c (l1 ++ l2) = catAlerts c l1 ++ catAlerts c l2 := by
  simp [catAlerts]

theorem catAlerts_map (c : AlertCategory) (t : Nat) (l : List Effect) :
    catAlerts c (l.map (fun x => (t, x))) =
      (alertCatEffects c l).map (fun x => (t, x)) := by
  induction l with
  | nil => rfl
  | cons a l ih =>
    by_cases h : effectHasCat c a = true <;>
      simp [catAlerts, alertCatEffects, List.filter_cons, h] <;>
      simpa [catAlerts, alertCatEffects] using ih

theorem catAlerts_map_nil (c : AlertCategory) (t : Nat) (l : List Effect)
    (h : alertCatEffects c l = []) :
    catAlerts c (l.map (fun x => (t, x))) = [] := by
  rw [catAlerts_map, h]
  rfl

theorem catAlerts_map_single (c : AlertCategory) (t : Nat) (l : List Effect) (x : Effect)
    (h : alertCatEffects c l = [x]) :
    catAlerts c (l.map (fun x => (t, x))) = [(t, x)] := by
  rw [catAlerts_map, h]
  rfl

theorem catAlerts_map_append_nil (c : AlertCategory) (t : Nat) (l1 l2 : List Effect)
    (h1 : alertCatEffects c l1 = []) (h2 : alertCatEffects c l2 = []) :
    catAlerts c ((l1 ++ l2).map (fun x => (t, x))) = [] := by
  rw [List.map_append, catAlerts_append, catAlerts_map, catAlerts_map, h1, h2]
  rfl

theorem catAlerts_map_append_left (c : AlertCategory) (t : Nat) (l1 l2 : List Effect)
    (x : Effect) (h1 : alertCatEffects c l1 = [x]) (h2 : alertCatEffects c l2 = []) :
    catAlerts c ((l1 ++ l2).map (fun x => (t, x))) = [(t, x)] := by
  rw [List.map_append, catAlerts_append, catAlerts_map, catAlerts_map, h1, h2]
  rfl

theorem catAlerts_map_append_right (c : AlertCategory) (t : Nat) (l1 l2 : List Effect)
    (x : Effect) (h1 : alertCatEffects c l1 = []) (h2 : alertCatEffects c l2 = [x]) :
    catAlerts c ((l1 ++ l2).map (fun x => (t, x))) = [(t, x)] := by
  rw [List.map_append, catAlerts_append, catAlerts_map, catAlerts_map, h1, h2]
  rfl

/- checkPlayerProximity never touches the health-alert throttle and
   never emits a health-warning alert. -/
theorem checkPlayerProximity_fields (now : Nat) (s : BotState) :
    (checkPlayerProximity now s).1.lastHealthAlert = s.lastHealthAlert ∧
    (checkPlayerProximity now s).1.safetyConfig = s.safetyConfig ∧
    alertCatEffects AlertCategory.healthWarnCat (checkPlayerProximity now s).2 = [] := by
  simp only [checkPlayerProximity]
  split
  · simp [alertCatEffects]
  · split
    · simp [alertCatEffects]
    · split
      · split <;> simp [alertCatEffects]
      · simp [alertCatEffects]

/- checkHealth never touches the proximity throttle and never emits a
   proximity-category alert. -/
theorem checkHealth_fields (now : Nat) (s : BotState) :
    (checkHealth now s).1.lastProximityAlert = s.lastProximityAlert ∧
    (checkHealth now s).1.safetyConfig = s.safetyConfig ∧
    alertCatEffects AlertCategory.proximityCat (checkHealth now s).2 = [] := by
  simp only [checkHealth, healthTail]
  split
  · simp [alertCatEffects]
  · split
    · split
      · simp [alertCatEffects]
      · split <;> simp [alertCatEffects]
    · split <;> simp [alertCatEffects]

/- A proximity evaluation either leaves the proximity throttle unchanged
   and emits no proximity-category alert, or it finds the cooldown
   elapsed, emits exactly one and moves the throttle to now. -/
theorem checkPlayerProximity_prox (now : Nat) (s : BotState) :
    ((checkPlayerProximity now s).1.lastProximityAlert = s.lastProximityAlert ∧
      alertCatEffects AlertCategory.proximityCat (checkPlayerProximity now s).2 = []) ∨
    (s.lastProximityAlert + s.safetyConfig.alertCooldown ≤ now ∧
      (checkPlayerProximity now s).1.lastProximityAlert = now ∧
      ∃ x : Effect,
        alertCatEffects AlertCategory.proximityCat (checkPlayerProximity now s).2 = [x]) := by
  by_cases h1 : (s.safetyConfig.enabled = false ∨ s.minecraftBot = none ∨ s.isConnected = false)
  · left; simp [checkPlayerProximity, if_pos h1, alertCatEffects]
  · by_cases h2 : ((now : Int) - (s.lastProximityAlert : Int) < (s.safetyConfig.alertCooldown : Int))
    · left; simp [checkPlayerProximity, if_neg h1, if_pos h2, alertCatEffects]
    · by_cases h3 : (0 < s.nearbyPlayers.length)
      · by_cases h4 : (s.safetyConfig.autoDisconnectOnThreat = true ∧ 0 < (threatsOf s).length)
        · right
          simp only [checkPlayerProximity, if_neg h1, if_neg h2, if_pos h3, if_pos h4]
          exact ⟨by omega, trivial,
            Effect.alert (Alert.threatDetected (threatsOf s)), by simp [alertCatEffects]⟩
        · right
          simp only [checkPlayerProximity, if_neg h1, if_neg h2, if_pos h3, if_neg h4]
          exact ⟨by omega, trivial,
            Effect.alert (Alert.proximityAlert (annotatedList s)), by simp [alertCatEffects]⟩
      · left; simp [checkPlayerProximity, if_neg h1, if_neg h2, if_neg h3, alertCatEffects]

/- A health evaluation either leaves the health-warning throttle
   unchanged and emits no health-warning alert, or it finds that
   cooldown elapsed, emits exactly one and moves the throttle to now. -/
theorem checkHealth_warn (now : Nat) (s : BotState) :
    ((checkHealth now s).1.lastHealthAlert = s.lastHealthAlert ∧
      alertCatEffects AlertCategory.healthWarnCat (checkHealth now s).2 = []) ∨
    (s.lastHealthAlert + s.safetyConfig.alertCooldown ≤ now ∧
      (checkHealth now s).1.lastHealthAlert = now ∧
      ∃ x : Effect,
        alertCatEffects AlertCategory.healthWarnCat (checkHealth now s).2 = [x]) := by
  by_cases h1 : (s.safetyConfig.enabled = false ∨ s.minecraftBot = none ∨ s.isConnected = false)
  · left; simp [checkHealth, if_pos h1, alertCatEffects]
  · by_cases hw : (s.currentHealth ≤ s.safetyConfig.minHealth ∧
      (s.safetyConfig.alertCooldown : Int) < (now : Int) - (s.lastHealthAlert : Int))
    · by_cases hd : s.currentHealth < s.lastHealth
      · by_cases hc : s.currentHealth ≤ s.safetyConfig.autoDisconnectHealth
        · left; simp [checkHealth, if_neg h1, if_pos hd, if_pos hc, alertCatEffects]
        · right
          simp only [checkHealth, if_neg h1, if_pos hd, if_neg hc, healthTail, if_pos hw]
          exact ⟨by omega, trivial,
            Effect.alert (Alert.lowHealth s.currentHealth), by simp [alertCatEffects]⟩
      · right
        simp only [checkHealth, if_neg h1, if_neg hd, healthTail, if_pos hw]
        exact ⟨by omega, trivial,
          Effect.alert (Alert.lowHealth s.currentHealth), by simp [alertCatEffects]⟩
    · by_cases hd : s.currentHealth < s.lastHealth
      · by_cases hc : s.currentHealth ≤ s.safetyConfig.autoDisconnectHealth
        · left; simp [checkHealth, if_neg h1, if_pos hd, if_pos hc, alertCatEffects]
        · left
          simp only [checkHealth, if_neg h1, if_pos hd, if_neg hc, healthTail, if_neg hw]
          simp [alertCatEffects]
      · left
        simp only [checkHealth, if_neg h1, if_neg hd, healthTail, if_neg hw]
        simp [alertCatEffects]

/- Every telemetry or timer event preserves the safety configuration. -/
theorem stepEvent_config (uname : String) (s : BotState) (e : SafetyEvent) :
    (stepEvent uname s e).1.safetyConfig = s.safetyConfig := by
  cases e with
  | healthUpdate t h =>
    exact (checkHealth_fields t { s with lastHealth := s.currentHealth, currentHealth := h }).2.1
  | playerList t rs =>
    exact (checkPlayerProximity_fields t
      { s with nearbyPlayers := setInsertAll [] (rs.filter (fun r => r ≠ uname)) }).2.1
  | timerTick t =>
    by_cases hg : (s.isConnected = true ∧ s.safetyConfig.enabled = true)
    · show (onSafetyTimer t s).1.safetyConfig = s.safetyConfig
      simp only [onSafetyTimer, if_pos hg]
      exact ((checkHealth_fields t (checkPlayerProximity t s).1).2.1).trans
        (checkPlayerProximity_fields t s).2.1
    · show (onSafetyTimer t s).1.safetyConfig = s.safetyConfig
      simp only [onSafetyTimer, if_neg hg]

/- One event emits at most one proximity-category alert, stamped with
   the event time, and only with the proximity cooldown elapsed. -/
theorem stepEvent_prox (uname : String) (s : BotState) (e : SafetyEvent) :
    ((stepEvent uname s e).1.lastProximityAlert = s.lastProximityAlert ∧
      catAlerts AlertCategory.proximityCat (stepEvent uname s e).2 = []) ∨
    (s.lastProximityAlert + s.safetyConfig.alertCooldown ≤ e.time ∧
      (stepEvent uname s e).1.lastProximityAlert = e.time ∧
      ∃ x : Effect,
        catAlerts AlertCategory.proximityCat (stepEvent uname s e).2 = [(e.time, x)]) := by
  cases e with
  | healthUpdate t h =>
    have hf := checkHealth_fields t { s with lastHealth := s.currentHealth, currentHealth := h }
    left
    exact ⟨hf.1, catAlerts_map_nil AlertCategory.proximityCat t _ hf.2.2⟩
  | playerList t rs =>
    have hp := checkPlayerProximity_prox t
      { s with nearbyPlayers := setInsertAll [] (rs.filter (fun r => r ≠ uname)) }
    rcases hp with ⟨h1, h2⟩ | ⟨h1, h2, x, h3⟩
    · left
      exact ⟨h1, catAlerts_map_nil AlertCategory.proximityCat t _ h2⟩
    · right
      exact ⟨h1, h2, x, catAlerts_map_single AlertCategory.proximityCat t _ x h3⟩
  | timerTick t =>
    by_cases hg : (s.isConnected = true ∧ s.safetyConfig.enabled = true)
    · have hp := checkPlayerProximity_prox t s
      have hf := checkHealth_fields t (checkPlayerProximity t s).1
      rcases hp with ⟨h1, h2⟩ | ⟨h1, h2, x, h3⟩
      · left
        constructor
        · show (onSafetyTimer t s).1.lastProximityAlert = s.lastProximityAlert
          simp only [onSafetyTimer, if_pos hg]
          exact hf.1.trans h1
        · show catAlerts AlertCategory.proximityCat
            ((onSafetyTimer t s).2.map (fun x => (t, x))) = []
          simp only [onSafetyTimer, if_pos hg]
          exact catAlerts_map_append_nil AlertCategory.proximityCat t _ _ h2 hf.2.2
      · right
        refine ⟨h1, ?_, x, ?_⟩
        · show (onSafetyTimer t s).1.lastProximityAlert = t
          simp only [onSafetyTimer, if_pos hg]
          exact hf.1.trans h2
        · show catAlerts AlertCategory.proximityCat
            ((onSafetyTimer t s).2.map (fun x => (t, x))) = [(t, x)]
          simp only [onSafetyTimer, if_pos hg]
          exact catAlerts_map_append_left AlertCategory.proximityCat t _ _ x h3 hf.2.2
    · left
      constructor
      · show (onSafetyTimer t s).1.lastProximityAlert = s.lastProximityAlert
        simp only [onSafetyTimer, if_neg hg]
      · show catAlerts AlertCategory.proximityCat
          ((onSafetyTimer t s).2.map (fun x => (t, x))) = []
        simp only [onSafetyTimer, if_neg hg]
        simp [catAlerts]

/- One event emits at most one health-warning alert, stamped with the
   event time, and only with the health cooldown elapsed. -/
theorem stepEvent_warn (uname : String) (s : BotState) (e : SafetyEvent) :
    ((stepEvent uname s e).1.lastHealthAlert = s.lastHealthAlert ∧
      catAlerts AlertCategory.healthWarnCat (stepEvent uname s e).2 = []) ∨
    (s.lastHealthAlert + s.safetyConfig.alertCooldown ≤ e.time ∧
      (stepEvent uname s e).1.lastHealthAlert = e.time ∧
      ∃ x : Effect,
        catAlerts AlertCategory.healthWarnCat (stepEvent uname s e).2 = [(e.time, x)]) := by
  cases e with
  | healthUpdate t h =>
    have hw := checkHealth_warn t { s with lastHealth := s.currentHealth, currentHealth := h }
    rcases hw with ⟨h1, h2⟩ | ⟨h1, h2, x, h3⟩
    · left
      exact ⟨h1, catAlerts_map_nil AlertCategory.healthWarnCat t _ h2⟩
    · right
      exact ⟨h1, h2, x, catAlerts_map_single AlertCategory.healthWarnCat t _ x h3⟩
  | playerList t rs =>
    have hf := checkPlayerProximity_fields t
      { s with nearbyPlayers := setInsertAll [] (rs.filter (fun r => r ≠ uname)) }
    left
    exact ⟨hf.1, catAlerts_map_nil AlertCategory.healthWarnCat t _ hf.2.2⟩
  | timerTick t =>
    by_cases hg : (s.isConnected = true ∧ s.safetyConfig.enabled = true)
    · have hf := checkPlayerProximity_fields t s
      have hw := checkHealth_warn t (checkPlayerProximity t s).1
      rcases hw with ⟨h1, h2⟩ | ⟨h1, h2, x, h3⟩
      · left
        constructor
        · show (onSafetyTimer t s).1.lastHealthAlert = s.lastHealthAlert
          simp only [onSafetyTimer, if_pos hg]
          exact h1.trans hf.1
        · show catAlerts AlertCategory.healthWarnCat
            ((onSafetyTimer t s).2.map (fun x => (t, x))) = []
          simp only [onSafetyTimer, if_pos hg]
          exact catAlerts_map_append_nil AlertCategory.healthWarnCat t _ _ hf.2.2 h2
      · right
        refine ⟨?_, ?_, x, ?_⟩
        · calc s.lastHealthAlert + s.safetyConfig.alertCooldown
              = (checkPlayerProximity t s).1.lastHealthAlert +
                (checkPlayerProximity t s).1.safetyConfig.alertCooldown := by rw [hf.1, hf.2.1]
            _ ≤ t := h1
        · show (onSafetyTimer t s).1.lastHealthAlert = t
          simp only [onSafetyTimer, if_pos hg]
          exact h2
        · show catAlerts AlertCategory.healthWarnCat
            ((onSafetyTimer t s).2.map (fun x => (t, x))) = [(t, x)]
          simp only [onSafetyTimer, if_pos hg]
          exact catAlerts_map_append_right AlertCategory.healthWarnCat t _ _ x hf.2.2 h3
    · left
      constructor
      · show (onSafetyTimer t s).1.lastHealthAlert = s.lastHealthAlert
        simp only [onSafetyTimer, if_neg hg]
      · show catAlerts AlertCategory.healthWarnCat
          ((onSafetyTimer t s).2.map (fun x => (t, x))) = []
        simp only [onSafetyTimer, if_neg hg]
        simp [catAlerts]

/- Throttle invariant over whole traces: along any run whose event times
   are nondecreasing and start no earlier than both throttle timestamps,
   every proximity-category (resp. health-warning) alert comes at least
   one cooldown after the starting timestamp, alerts of each throttled
   category are pairwise at least one cooldown apart, and the throttle
   timestamps never decrease. -/
theorem runTrace_throttle (uname : String) (cool : Nat) (evs : List SafetyEvent) :
    ∀ (s : BotState) (lo : Nat),
    s.safetyConfig.alertCooldown = cool →
    s.lastProximityAlert ≤ lo →
    s.lastHealthAlert ≤ lo →
    monoFrom lo evs = true →
    (∀ p ∈ catAlerts AlertCategory.proximityCat (runTrace uname s evs).2,
      s.lastProximityAlert + cool ≤ p.1) ∧
    (∀ p ∈ catAlerts AlertCategory.healthWarnCat (runTrace uname s evs).2,
      s.lastHealthAlert + cool ≤ p.1) ∧
    List.Pairwise (cooldownApart cool)
      (catAlerts AlertCategory.proximityCat (runTrace uname s evs).2) ∧
    List.Pairwise (cooldownApart cool)
      (catAlerts AlertCategory.healthWarnCat (runTrace uname s evs).2) ∧
    s.lastProximityAlert ≤ (runTrace uname s evs).1.lastProximityAlert ∧
    s.lastHealthAlert ≤ (runTrace uname s evs).1.lastHealthAlert := by
  induction evs with
  | nil =>
    intro s lo h1 h2 h3 h4
    simp [runTrace, catAlerts]
  | cons e rest ih =>
    intro s lo hcfg hp hh hm
    have hmono : lo ≤ e.time ∧ monoFrom e.time rest = true := by
      simpa [monoFrom] using hm
    have hconf := stepEvent_config uname s e
    have hprox := stepEvent_prox uname s e
    have hwarn := stepEvent_warn uname s e
    have hp1 : (stepEvent uname s e).1.lastProximityAlert ≤ e.time := by
      rcases hprox with ⟨h1, _⟩ | ⟨_, h1, _⟩
      · rw [h1]; omega
      · rw [h1]
    have hh1 : (stepEvent uname s e).1.lastHealthAlert ≤ e.time := by
      rcases hwarn with ⟨h1, _⟩ | ⟨_, h1, _⟩
      · rw [h1]; omega
      · rw [h1]
    have hmonoP : s.lastProximityAlert ≤ (stepEvent uname s e).1.lastProximityAlert := by
      rcases hprox with ⟨h1, _⟩ | ⟨_, h1, _⟩
      · rw [h1]
      · rw [h1]; omega
    have hmonoH : s.lastHealthAlert ≤ (stepEvent uname s e).1.lastHealthAlert := by
      rcases hwarn with ⟨h1, _⟩ | ⟨_, h1, _⟩
      · rw [h1]
      · rw [h1]; omega
    have hcool1 : (stepEvent uname s e).1.safetyConfig.alertCooldown = cool := by
      rw [hconf]; exact hcfg
    have hIH := ih (stepEvent uname s e).1 e.time hcool1 hp1 hh1 hmono.2
    simp only [runTrace]
    refine ⟨?_, ?_, ?_, ?_, ?_, ?_⟩
    · rw [catAlerts_append]
      intro p hpmem
      rcases List.mem_append.mp hpmem with hm1 | hm2
      · rcases hprox with ⟨_, hnil⟩ | ⟨hge, _, x, hsing⟩
        · rw [hnil] at hm1; cases hm1
        · rw [hsing] at hm1
          rw [List.mem_singleton.mp hm1]
          show s.lastProximityAlert + cool ≤ e.time
          omega
      · have := hIH.1 p hm2
        omega
    · rw [catAlerts_append]
      intro p hpmem
      rcases List.mem_append.mp hpmem with hm1 | hm2
      · rcases hwarn with ⟨_, hnil⟩ | ⟨hge, _, x, hsing⟩
        · rw [hnil] at hm1; cases hm1
        · rw [hsing] at hm1
          rw [List.mem_singleton.mp hm1]
          show s.lastHealthAlert + cool ≤ e.time
          omega
      · have := hIH.2.1 p hm2
        omega
    · rw [catAlerts_append]
      apply List.pairwise_append.mpr
      refine ⟨?_, hIH.2.2.1, ?_⟩
      · rcases hprox with ⟨_, hnil⟩ | ⟨_, _, x, hsing⟩
        · rw [hnil]; exact List.Pairwise.nil
        · rw [hsing]; simp [cooldownApart]
      · intro a ha b hb
        rcases hprox with ⟨_, hnil⟩ | ⟨_, heq, x, hsing⟩
        · rw [hnil] at ha; cases ha
        · rw [hsing] at ha
          rw [List.mem_singleton.mp ha]
          have hbound := hIH.1 b hb
          show e.time + cool ≤ b.1
          omega
    · rw [catAlerts_append]
      apply List.pairwise_append.mpr
      refine ⟨?_, hIH.2.2.2.1, ?_⟩
      · rcases hwarn with ⟨_, hnil⟩ | ⟨_, _, x, hsing⟩
        · rw [hnil]; exact List.Pairwise.nil
        · rw [hsing]; simp [cooldownApart]
      · intro a ha b hb
        rcases hwarn with ⟨_, hnil⟩ | ⟨_, heq, x, hsing⟩
        · rw [hnil] at ha; cases ha
        · rw [hsing] at ha
          rw [List.mem_singleton.mp ha]
          have hbound := hIH.2.1 b hb
          show e.time + cool ≤ b.1
          omega
    · exact hmonoP.trans hIH.2.2.2.2.1
    · exact hmonoH.trans hIH.2.2.2.2.2

/-- Claim C6 counterexample: two health decreases 1 ms apart each emit a
damage-taken alert (same alert category) although the cooldown is
30000 ms, so not every alert category is limited to one emission per
alertCooldownMs. -/
theorem alertThrottle_counterexample :
    (runTrace noName baseState throttleEvents).2 =
      [(100, Effect.alert (Alert.damageTaken 6 20 14)),
       (101, Effect.alert (Alert.damageTaken 4 14 10))] ∧
    (Alert.damageTaken 6 20 14).category = (Alert.damageTaken 4 14 10).category ∧
    ¬ cooldownApart baseState.safetyConfig.alertCooldown
      (100, Effect.alert (Alert.damageTaken 6 20 14))
      (101, Effect.alert (Alert.damageTaken 4 14 10)) := by
  refine ⟨by decide, rfl, fun hcon => ?_⟩
  exact absurd (show (100 : Nat) + baseState.safetyConfig.alertCooldown ≤ 101 from hcon)
    (by decide)

/-- Claim C6 amended: only the throttled alert categories respect the
cooldown: along any event trace with nondecreasing times starting no
earlier than both throttle timestamps, any two proximity-category alerts
(threat or generic) are at least alertCooldownMs apart, and so are any
two low-health warnings; damage-taken and critical-health alerts are
exempt from throttling. -/
theorem alertThrottle_throttled (uname : String) (s : BotState) (evs : List SafetyEvent)
    (lo : Nat)
    (hp : s.lastProximityAlert ≤ lo)
    (hh : s.lastHealthAlert ≤ lo)
    (hm : monoFrom lo evs = true) :
    List.Pairwise (cooldownApart s.safetyConfig.alertCooldown)
      (catAlerts AlertCategory.proximityCat (runTrace uname s evs).2) ∧
    List.Pairwise (cooldownApart s.safetyConfig.alertCooldown)
      (catAlerts AlertCategory.healthWarnCat (runTrace uname s evs).2) := by
  have h := runTrace_throttle uname s.safetyConfig.alertCooldown evs s lo rfl hp hh hm
  exact ⟨h.2.2.1, h.2.2.2.1⟩

/-- Claim C6 witness: a run of two periodic sweeps with nearby players
keeps the throttled categories pairwise at least one cooldown apart. -/
theorem alertThrottle_throttled_witness :
    List.Pairwise (cooldownApart proxState.safetyConfig.alertCooldown)
      (catAlerts AlertCategory.proximityCat (runTrace noName proxState quietEvents).2) ∧
    List.Pairwise (cooldownApart proxState.safetyConfig.alertCooldown)
      (catAlerts AlertCategory.healthWarnCat (runTrace noName proxState quietEvents).2) :=
  alertThrottle_throttled noName proxState quietEvents 0 (by decide) (by decide) (by decide)

end BedrockBot
